import Mathlib

/-! Verification of the NovaDoc repository (frontend.py, reprocess_docs.py)
against its natural-language specification.

The frontend (frontend.py) is embedded faithfully: file-type dispatch,
format-specific extractors, persistence of extracted text and the hand-off
to the document processor are modelled as pure functions over an explicit
event trace.  The core modules (document_processor.py, query_engine.py)
are not part of the sources; where a claim depends on them they are
modelled from the spec, and marked as such. -/

namespace NovaDoc

/-- Whitespace test matching Python `str.strip()` / falsiness of stripped
text for the ASCII range used by the frontend. -/
def pyIsSpace (c : Char) : Bool :=
  c = ' ' || c = '\t' || c = '\n' || c = '\r' || c = '\x0b' || c = '\x0c'

/-- Python `str.lower()` restricted to the per-character mapping (exact on
ASCII, which is all the extension comparison in frontend.py line 95 needs). -/
def pyLower (s : String) : String :=
  String.mk (s.data.map Char.toLower)

/-- Index of the last occurrence of `c` in the list, as in Python
`str.rfind` (returning `none` instead of -1). -/
def rfindIdx (c : Char) : List Char → Option Nat
  | [] => none
  | x :: xs =>
    match rfindIdx c xs with
    | some i => some (i + 1)
    | none => if x = c then some 0 else none

/-- `pathlib.PurePath.suffix` for a bare file name (uploaded-file names
contain no path separator): the part of the name from the last dot on,
empty when the last dot is the first character, absent, or trailing. -/
def pySuffix (s : String) : String :=
  match rfindIdx '.' s.data with
  | some i => if 0 < i ∧ i + 1 < s.data.length then String.mk (s.data.drop i) else ""
  | none => ""

/-- `pathlib.PurePath.stem` for a bare file name: the name with `pySuffix`
removed. -/
def pyStem (s : String) : String :=
  match rfindIdx '.' s.data with
  | some i => if 0 < i ∧ i + 1 < s.data.length then String.mk (s.data.take i) else s

  | none => s

/-- An exception raised by a Python library call (docx, PyPDF2, pandas,
`str` decoding); only its presence matters to the control flow. -/
structure PyError where
  msg : String
deriving DecidableEq

/-- `extract_text_from_docx` (frontend.py lines 38-48): concatenates each
paragraph text followed by a newline; any library exception is caught and
`None` is returned.  The argument is the outcome of `docx.Document(file)`
read off as its list of paragraph texts. -/
def extract_text_from_docx (doc : Except PyError (List String)) : Option String :=
  match doc with
  | Except.ok paragraphs => some (String.join (paragraphs.map (fun p => p ++ "\n")))
  | Except.error _ => none

/-- `extract_text_from_pdf` (frontend.py lines 50-60): concatenates each
page's extracted text followed by a newline; exceptions yield `None`.  The
argument is the outcome of `PyPDF2.PdfReader(file)` read off as its list
of page texts. -/
def extract_text_from_pdf (pdf : Except PyError (List String)) : Option String :=
  match pdf with
  | Except.ok pages => some (String.join (pages.map (fun p => p ++ "\n")))
  | Except.error _ => none

/-- The outcome of `pandas.read_csv`: the parsed frame, abstracted to what
`extract_text_from_csv` consumes — column names with their numeric-dtype
flag, the rows, and the opaque pandas renderings `to_string`/`describe`. -/
structure CsvFrame where
  columns : List (String × Bool)
  rows : List (List String)
  renderTable : List (List String) → String
  describeStr : String

/-- `extract_text_from_csv` (frontend.py lines 62-86): builds the header
line from the file name, the comma-joined column names, the row count, the
rendering of `df.head(10)`, and — only when a numeric column exists — the
`describe()` summary; exceptions yield `None`. -/
def extract_text_from_csv (fname : String) (res : Except PyError CsvFrame) : Option String :=
  match res with
  | Except.error _ => none
  | Except.ok df =>
    let base := "CSV Data from " ++ fname ++ ":\n\n"
      ++ "Columns: " ++ String.intercalate ", " (df.columns.map Prod.fst) ++ "\n\n"
      ++ "Total rows: " ++ toString df.rows.length ++ "\n\n"
      ++ "Sample data:\n" ++ df.renderTable (df.rows.take 10)
    let numericCols := (df.columns.filter (fun c => c.2)).map Prod.fst
    if numericCols.length > 0 then
      some (base ++ "\n\nSummary Statistics:\n" ++ df.describeStr)
    else
      some base

/-- Observable side effects of `process_uploaded_file`: directory creation,
the read/extract of the upload, file writes, and the call into the
document processor.  `callProcessDocument` is the spec's claimed surface
operation `process_document(text, id)`; the code itself only ever emits
`callProcessTextFile` (frontend.py line 131). -/
inductive Event
  | mkUploadsDir
  | readTxt
  | extractDocx
  | extractPdf
  | extractCsv
  | writeFile (path content : String)
  | callProcessTextFile (path docId : String)
  | callProcessDocument (text docId : String)
deriving DecidableEq

/-- An uploaded file as `process_uploaded_file` observes it: its name and
the outcome of each library interaction its extension could trigger
(`str(file.read(), "utf-8")`, `docx.Document`, `PyPDF2.PdfReader`,
`pandas.read_csv`). -/
structure UploadedFile where
  name : String
  txtContent : Except PyError String
  docxDoc : Except PyError (List String)
  pdfDoc : Except PyError (List String)
  csvData : Except PyError CsvFrame

/-- Result of the extraction phase of `process_uploaded_file` (frontend.py
lines 94-118): the extension was unsupported, a raised exception escaped
to the outer handler (only the `.txt` decode can do that), or an extractor
returned its `Option` result. -/
inductive ExtractOutcome
  | unsupported
  | raised
  | extracted (t : Option String)
deriving DecidableEq

/-- The extraction phase of `process_uploaded_file`: dispatch on the
lower-cased final extension of the file name, with the events it emits. -/
def extractPhase (f : UploadedFile) : ExtractOutcome × List Event :=
  let ext := pyLower (pySuffix f.name)
  if ext = ".txt" then
    match f.txtContent with
    | Except.ok s => (ExtractOutcome.extracted (some s), [Event.readTxt])
    | Except.error _ => (ExtractOutcome.raised, [Event.readTxt])
  else if ext = ".docx" then
    (ExtractOutcome.extracted (extract_text_from_docx f.docxDoc), [Event.extractDocx])
  else if ext = ".pdf" then
    (ExtractOutcome.extracted (extract_text_from_pdf f.pdfDoc), [Event.extractPdf])
  else if ext = ".csv" then
    (ExtractOutcome.extracted (extract_text_from_csv f.name f.csvData), [Event.extractCsv])
  else
    (ExtractOutcome.unsupported, [])

/-- The path `uploads/{name}_processed.txt` the frontend persists extracted
text to (frontend.py line 125). -/
def processedPath (name : String) : String :=
  "uploads/" ++ name ++ "_processed.txt"

/-- `process_uploaded_file` (frontend.py lines 88-143): create the uploads
directory, extract text by file type, reject unsupported types and
empty/whitespace text with `False`, otherwise persist the text to
`uploads/{name}_processed.txt` and call
`doc_processor.process_text_file(file_path, document_id)` with the file's
stem as document id.  `proc` is the processor call's outcome; a raised
exception anywhere is absorbed by the outer handler into `False`. -/
def process_uploaded_file (f : UploadedFile)
    (proc : String → String → Except PyError Bool) : Bool × List Event :=
  match extractPhase f with
  | (ExtractOutcome.unsupported, evs) => (false, Event.mkUploadsDir :: evs)
  | (ExtractOutcome.raised, evs) => (false, Event.mkUploadsDir :: evs)
  | (ExtractOutcome.extracted none, evs) => (false, Event.mkUploadsDir :: evs)
  | (ExtractOutcome.extracted (some s), evs) =>
    if s.data.all pyIsSpace then (false, Event.mkUploadsDir :: evs)
    else
      let path := processedPath f.name
      let docId := pyStem f.name
      let evs2 := Event.mkUploadsDir :: evs
        ++ [Event.writeFile path s, Event.callProcessTextFile path docId]
      match proc path docId with
      | Except.ok b => (b, evs2)
      | Except.error _ => (false, evs2)

/-- Effect of one event on a flat model of the uploads file system
(association list path ↦ content); `open(path, "w")` truncates, so a write
replaces any previous content at the same path. -/
def applyEvent (fs : List (String × String)) : Event → List (String × String)
  | Event.writeFile p c => (p, c) :: fs.filter (fun e => e.1 ≠ p)
  | _ => fs

/-- Run a trace of events against the file-system model. -/
def runEvents (fs : List (String × String)) (evs : List Event) : List (String × String) :=
  evs.foldl applyEvent fs

/-- Content stored at a path in the file-system model. -/
def fileLookup (p : String) (fs : List (String × String)) : Option String :=
  (fs.find? (fun e => e.1 = p)).map Prod.snd

/-- Modelled from the spec: a Chunk of the data model (section 3) owned by
the VectorStore — document_processor.py is not among the sources, so the
store side is built from the specification text. -/
structure Chunk where
  document_id : String
  chunk_index : Nat
  text : String
  vector : List Rat

/-- Modelled from the spec: the VectorStore, a dimension fixed at
initialization plus the stored chunks in insertion order (section 3). -/
structure VectorStore where
  dim : Nat
  chunks : List Chunk

/-- Modelled from the spec: the stats snapshot
`{total_documents: integer = total chunk count, dimension: integer}`. -/
structure StatsSnapshot where
  total_documents : Nat
  dimension : Nat
deriving DecidableEq

/-- Modelled from the spec: `clear_all_documents()` delegates to
`VectorStore.clear()`, which empties the store unconditionally
(sections 4.3 and 4.4). -/
def clear_all_documents (s : VectorStore) : VectorStore :=
  { s with chunks := [] }

/-- Modelled from the spec: `get_vector_store_stats()` recomputes the
snapshot on demand from the current store (sections 3 and 4.4). -/
def get_vector_store_stats (s : VectorStore) : StatsSnapshot :=
  { total_documents := s.chunks.length, dimension := s.dim }

/-- Modelled from the spec: the Python dictionary
`get_vector_store_stats()` hands the frontend and the reprocessing script,
as a key-value list — exactly the keys `total_documents` and `dimension`
(section 6). -/
def statsDict (s : VectorStore) : List (String × Nat) :=
  [("total_documents", s.chunks.length), ("dimension", s.dim)]

/-- Value stored under a key of a stats dictionary. -/
def dictGet (k : String) (d : List (String × Nat)) : Option Nat :=
  (d.find? (fun e => e.1 = k)).map Prod.snd

/-- Modelled from the spec: the Chunker fallback of section 4.1 — a fixed
character window of `size` advanced by `size - overlap`; empty or
whitespace-only input yields the empty sequence. -/
def chunkText (text : String) (size overlap : Nat) : List String :=
  let cs := text.data
  if cs.all pyIsSpace then []
  else
    let step := size - overlap
    (List.range ((cs.length + step - 1) / step)).map
      (fun i => String.mk ((cs.drop (i * step)).take size))

/-- Modelled from the spec: the chunk list a successful
`process_document(text, docId)` leaves in the store — stale chunks for the
id removed, then the freshly chunked and embedded text appended
(section 4.4). -/
def pdChunks (emb : String → List Rat) (cs : List Chunk) (text docId : String) : List Chunk :=
  cs.filter (fun c => c.document_id ≠ docId)
    ++ (chunkText text 500 50).enum.map
        (fun p => { document_id := docId, chunk_index := p.1, text := p.2, vector := emb p.2 })

/-- Modelled from the spec: `process_document(text, document_id) -> bool`
of section 4.4 — rejects empty/whitespace text with a failure result,
otherwise replaces the chunks for the id. -/
def process_document (emb : String → List Rat) (s : VectorStore)
    (text docId : String) : Bool × VectorStore :=
  if text.data.all pyIsSpace then (false, s)
  else (true, { s with chunks := pdChunks emb s.chunks text docId })

/-- Modelled from the spec: `add_sample_documents()` ingests a fixed
built-in set of example documents through the re-ingestion semantics of
`process_document` (section 4.4); the set itself is opaque, so it is a
parameter of id-text pairs. -/
def add_sample_documents (samples : List (String × String))
    (emb : String → List Rat) (s : VectorStore) : VectorStore :=
  samples.foldl (fun st d => (process_document emb st d.2 d.1).2) s

/-- The reprocessing script (reprocess_docs.py): clear all documents,
re-ingest the samples, then report `stats["total_documents"]`. -/
def reprocess_script (samples : List (String × String))
    (emb : String → List Rat) (s : VectorStore) : Nat :=
  let s1 := clear_all_documents s
  let s2 := add_sample_documents samples emb s1
  (get_vector_store_stats s2).total_documents

/-- Modelled from the spec: the internal failure conditions of
`ask_question` (sections 4.5 and 7) — empty question, query-time embedding
failure, and empty corpus / no passage above the relevance threshold. -/
inductive QueryFailure
  | emptyQuestion
  | embeddingFailed
  | noRelevantPassages
deriving DecidableEq

/-- Modelled from the spec: what the QueryEngine observes of its
collaborators — whether the embedder can embed the question, the ranked
passages retrieval returns for it, and the generative model with its
availability (query_engine.py is not among the sources). -/
structure QueryEnv where
  embedOk : Bool
  retrieved : String → List String
  generativeAvailable : Bool
  generate : String → List String → String

/-- Modelled from the spec: the template-mode answer, composed from the
retrieved passage text with light formatting (section 4.5 step 5). -/
def templateAnswer (passages : List String) : String :=
  "Based on the documents: " ++ String.intercalate " " passages

/-- Modelled from the spec: the pipeline of `ask_question` (section 4.5
steps 1-5) with its internal failures made explicit; the Bool of a
successful answer signals whether the requested mode actually ran (false =
fallback to template mode was taken and signalled). -/
def askQuestionInner (env : QueryEnv) (question : String) (useAdvanced : Bool) :
    Except QueryFailure (String × Bool) :=
  if question.data.all pyIsSpace then Except.error QueryFailure.emptyQuestion
  else if !env.embedOk then Except.error QueryFailure.embeddingFailed
  else
    let passages := env.retrieved question
    if passages.isEmpty then Except.error QueryFailure.noRelevantPassages
    else if useAdvanced then
      if env.generativeAvailable then Except.ok (env.generate question passages, true)
      else Except.ok (templateAnswer passages, false)
    else Except.ok (templateAnswer passages, true)

/-- Modelled from the spec: the fixed user-presentable answer each internal
failure resolves to (section 4.5 steps 1, 2 and 4). -/
def failureAnswer : QueryFailure → String
  | QueryFailure.emptyQuestion => "Please enter a question."
  | QueryFailure.embeddingFailed => "Unable to process the question."
  | QueryFailure.noRelevantPassages => "No relevant information found in the documents."

/-- Modelled from the spec: `ask_question(question, use_advanced)` — the
boundary that resolves every internal failure to a textual answer plus a
success/degraded indicator (section 4.5 output guarantee). -/
def ask_question (env : QueryEnv) (question : String) (useAdvanced : Bool) :
    String × Bool :=
  match askQuestionInner env question useAdvanced with
  | Except.ok a => a
  | Except.error fq => (failureAnswer fq, false)

/-! Helper lemmas. -/

theorem pyStem_append_pySuffix (s : String) : pyStem s ++ pySuffix s = s := by
  unfold pyStem pySuffix
  cases h : rfindIdx '.' s.data with
  | none => exact String.append_empty s
  | some i =>
    dsimp only
    by_cases hc : 0 < i ∧ i + 1 < s.data.length
    · rw [if_pos hc, if_pos hc]
      cases s with
      | mk d =>
        apply String.toList_inj.mp
        simp [String.toList]
    · rw [if_neg hc, if_neg hc]
      exact String.append_empty s

theorem pySuffix_ne_empty_of_lower (s ext : String) (hne : ext ≠ "")
    (h : pyLower (pySuffix s) = ext) : pySuffix s ≠ "" := by
  intro h0
  rw [h0] at h
  exact hne (by rw [← h]; rfl)

theorem extractPhase_supported (f : UploadedFile) (t : Option String)
    (h : (extractPhase f).1 = ExtractOutcome.extracted t) :
    pyLower (pySuffix f.name) = ".txt" ∨ pyLower (pySuffix f.name) = ".docx"
    ∨ pyLower (pySuffix f.name) = ".pdf" ∨ pyLower (pySuffix f.name) = ".csv" := by
  by_cases h1 : pyLower (pySuffix f.name) = ".txt"
  · exact Or.inl h1
  by_cases h2 : pyLower (pySuffix f.name) = ".docx"
  · exact Or.inr (Or.inl h2)
  by_cases h3 : pyLower (pySuffix f.name) = ".pdf"
  · exact Or.inr (Or.inr (Or.inl h3))
  by_cases h4 : pyLower (pySuffix f.name) = ".csv"
  · exact Or.inr (Or.inr (Or.inr h4))
  exfalso
  simp [extractPhase, h1, h2, h3, h4] at h

theorem extractPhase_trace (f : UploadedFile) :
    (extractPhase f).2 = [] ∨ (extractPhase f).2 = [Event.readTxt]
    ∨ (extractPhase f).2 = [Event.extractDocx] ∨ (extractPhase f).2 = [Event.extractPdf]
    ∨ (extractPhase f).2 = [Event.extractCsv] := by
  by_cases h1 : pyLower (pySuffix f.name) = ".txt"
  · cases hx : f.txtContent <;> simp [extractPhase, h1, hx]
  by_cases h2 : pyLower (pySuffix f.name) = ".docx"
  · simp [extractPhase, h1, h2]
  by_cases h3 : pyLower (pySuffix f.name) = ".pdf"
  · simp [extractPhase, h1, h2, h3]
  by_cases h4 : pyLower (pySuffix f.name) = ".csv"
  · simp [extractPhase, h1, h2, h3, h4]
  simp [extractPhase, h1, h2, h3, h4]

theorem no_proc_call_in_extract (f : UploadedFile) (p i : String) :
    Event.callProcessTextFile p i ∉ (extractPhase f).2
    ∧ Event.callProcessDocument p i ∉ (extractPhase f).2
    ∧ ∀ c, Event.writeFile p c ∉ (extractPhase f).2 := by
  rcases extractPhase_trace f with h | h | h | h | h <;> rw [h] <;>
    exact ⟨by simp, by simp, by intro c; simp⟩

theorem runEvents_extract (f : UploadedFile) (fs : List (String × String)) :
    runEvents fs (extractPhase f).2 = fs := by
  rcases extractPhase_trace f with h | h | h | h | h <;> rw [h] <;> rfl

theorem process_uploaded_file_cases (f : UploadedFile)
    (proc : String → String → Except PyError Bool) :
    process_uploaded_file f proc = (false, Event.mkUploadsDir :: (extractPhase f).2)
    ∨ ∃ s, (extractPhase f).1 = ExtractOutcome.extracted (some s)
        ∧ s.data.all pyIsSpace = false
        ∧ (process_uploaded_file f proc).2
            = Event.mkUploadsDir :: (extractPhase f).2
              ++ [Event.writeFile (processedPath f.name) s,
                  Event.callProcessTextFile (processedPath f.name) (pyStem f.name)]
        ∧ ((process_uploaded_file f proc).1 = true →
            proc (processedPath f.name) (pyStem f.name) = Except.ok true) := by
  rcases hE : extractPhase f with ⟨o, evs⟩
  cases o with
  | unsupported => left; simp [process_uploaded_file, hE]
  | raised => left; simp [process_uploaded_file, hE]
  | extracted t =>
    cases t with
    | none => left; simp [process_uploaded_file, hE]
    | some s =>
      by_cases hb : s.data.all pyIsSpace
      · left; simp [process_uploaded_file, hE, hb]
      · right
        refine ⟨s, rfl, by simpa using hb, ?_, ?_⟩
        · cases hp : proc (processedPath f.name) (pyStem f.name) with
          | ok b => simp [process_uploaded_file, hE, hb, hp]
          | error e => simp [process_uploaded_file, hE, hb, hp]
        · intro ht
          cases hp : proc (processedPath f.name) (pyStem f.name) with
          | ok b =>
            cases b
            · exfalso
              simp [process_uploaded_file, hE, hb, hp] at ht
            · rfl
          | error e =>
            exfalso
            simp [process_uploaded_file, hE, hb, hp] at ht

/-! Concrete inputs used by the witnesses. -/

/-- A processor stub that accepts every hand-off. -/
def procOk : String → String → Except PyError Bool := fun _ _ => Except.ok true

/-- A failed library interaction. -/
def libErr : PyError := { msg := "boom" }

/-- A plain-text upload named a.txt whose content decodes to "hello". -/
def txtUploadA : UploadedFile :=
  { name := "a.txt", txtContent := Except.ok "hello",
    docxDoc := Except.error libErr, pdfDoc := Except.error libErr,
    csvData := Except.error libErr }

/-- A plain-text upload whose content is whitespace only. -/
def blankUpload : UploadedFile :=
  { name := "blank.txt", txtContent := Except.ok "   ",
    docxDoc := Except.error libErr, pdfDoc := Except.error libErr,
    csvData := Except.error libErr }

/-- A Word upload whose docx library call raises. -/
def docxUploadErr : UploadedFile :=
  { name := "b.docx", txtContent := Except.error libErr,
    docxDoc := Except.error libErr, pdfDoc := Except.error libErr,
    csvData := Except.error libErr }

/-- An upload with an unsupported extension. -/
def exeUpload : UploadedFile :=
  { name := "tool.exe", txtContent := Except.ok "x",
    docxDoc := Except.error libErr, pdfDoc := Except.error libErr,
    csvData := Except.error libErr }

/-- A plain-text upload named notes.txt. -/
def txtUploadNotes : UploadedFile :=
  { name := "notes.txt", txtContent := Except.ok "Employees receive 15 vacation days per year.",
    docxDoc := Except.error libErr, pdfDoc := Except.error libErr,
    csvData := Except.error libErr }

/-- A plain-text upload named memo.txt. -/
def txtUploadMemo : UploadedFile :=
  { name := "memo.txt", txtContent := Except.ok "hello memo",
    docxDoc := Except.error libErr, pdfDoc := Except.error libErr,
    csvData := Except.error libErr }

/-- A query environment whose embedder is down. -/
def env0 : QueryEnv :=
  { embedOk := false, retrieved := fun _ => [],
    generativeAvailable := true, generate := fun _ _ => "" }

/-- Modelled from the spec: the ingestion event the external surface of
section 6 predicts for an upload — the core is handed the extracted text
blob and the document identifier through `process_document(text, id)`. -/
def specIngestionCall (text docId : String) : Event :=
  Event.callProcessDocument text docId

/-- The emptiness test frontend.py line 120 applies to extracted text:
true when the extraction produced `None`, an empty string, or
whitespace only. -/
def blankText : Option String → Bool
  | none => true
  | some s => s.data.all pyIsSpace

/-! Claim theorems. -/

/-- C3: for every uploaded file whose extracted text is None, empty, or
whitespace-only, `process_uploaded_file` returns False — a failure result,
not a raised exception — and never invokes the document processor. -/
theorem blank_extraction_returns_false (f : UploadedFile)
    (proc : String → String → Except PyError Bool) (t : Option String)
    (h1 : (extractPhase f).1 = ExtractOutcome.extracted t)
    (h2 : blankText t = true) :
    (process_uploaded_file f proc).1 = false
    ∧ ∀ p i, Event.callProcessTextFile p i ∉ (process_uploaded_file f proc).2
        ∧ Event.callProcessDocument p i ∉ (process_uploaded_file f proc).2 := by
  have hfix : process_uploaded_file f proc
      = (false, Event.mkUploadsDir :: (extractPhase f).2) := by
    rcases hE : extractPhase f with ⟨o, evs⟩
    rw [hE] at h1
    dsimp only at h1
    subst h1
    cases t with
    | none => simp [process_uploaded_file, hE]
    | some s =>
      have hb : s.data.all pyIsSpace = true := h2
      simp [process_uploaded_file, hE, hb]
  refine ⟨by rw [hfix], ?_⟩
  intro p i
  rw [hfix]
  constructor
  · intro hm
    rcases List.mem_cons.mp hm with hh | hm2
    · simp at hh
    · exact (no_proc_call_in_extract f p i).1 hm2
  · intro hm
    rcases List.mem_cons.mp hm with hh | hm2
    · simp at hh
    · exact (no_proc_call_in_extract f p i).2.1 hm2

/-- Witness for C3: a whitespace-only text upload is rejected with False
and the processor is never called. -/
theorem blank_extraction_returns_false_witness :
    (process_uploaded_file blankUpload procOk).1 = false
    ∧ Event.callProcessTextFile "uploads/blank.txt_processed.txt" "blank"
        ∉ (process_uploaded_file blankUpload procOk).2 := by
  have h := blank_extraction_returns_false blankUpload procOk (some "   ")
    (by decide) (by decide)
  exact ⟨h.1, (h.2 "uploads/blank.txt_processed.txt" "blank").1⟩

/-- C4: each format-specific extractor returns None instead of propagating
an underlying library error, and `process_uploaded_file` then returns
False. -/
theorem extractor_error_degrades (f : UploadedFile)
    (proc : String → String → Except PyError Bool) (e : PyError)
    (h : (pyLower (pySuffix f.name) = ".docx" ∧ f.docxDoc = Except.error e)
       ∨ (pyLower (pySuffix f.name) = ".pdf" ∧ f.pdfDoc = Except.error e)
       ∨ (pyLower (pySuffix f.name) = ".csv" ∧ f.csvData = Except.error e)) :
    extract_text_from_docx (Except.error e) = none
    ∧ extract_text_from_pdf (Except.error e) = none
    ∧ extract_text_from_csv f.name (Except.error e) = none
    ∧ (process_uploaded_file f proc).1 = false := by
  refine ⟨rfl, rfl, rfl, ?_⟩
  rcases h with ⟨hx, he⟩ | ⟨hx, he⟩ | ⟨hx, he⟩
  · have h1 : pyLower (pySuffix f.name) ≠ ".txt" := by rw [hx]; decide
    simp [process_uploaded_file, extractPhase, h1, hx, he, extract_text_from_docx]
  · have h1 : pyLower (pySuffix f.name) ≠ ".txt" := by rw [hx]; decide
    have h2 : pyLower (pySuffix f.name) ≠ ".docx" := by rw [hx]; decide
    simp [process_uploaded_file, extractPhase, h1, h2, hx, he, extract_text_from_pdf]
  · have h1 : pyLower (pySuffix f.name) ≠ ".txt" := by rw [hx]; decide
    have h2 : pyLower (pySuffix f.name) ≠ ".docx" := by rw [hx]; decide
    have h3 : pyLower (pySuffix f.name) ≠ ".pdf" := by rw [hx]; decide
    simp [process_uploaded_file, extractPhase, h1, h2, h3, hx, he, extract_text_from_csv]

/-- Witness for C4: a docx upload whose library call raises is degraded to
None by the extractor and to False by `process_uploaded_file`. -/
theorem extractor_error_degrades_witness :
    extract_text_from_docx (Except.error libErr) = none
    ∧ (process_uploaded_file docxUploadErr procOk).1 = false := by
  have h := extractor_error_degrades docxUploadErr procOk libErr
    (Or.inl ⟨by decide, rfl⟩)
  exact ⟨h.1, h.2.2.2⟩

/-- C5: for every uploaded file that is ingested, the document id handed
to the processor is the stem of the file name — the name with its final
extension removed (and a final extension is indeed present). -/
theorem document_id_is_file_stem (f : UploadedFile)
    (proc : String → String → Except PyError Bool) (p i : String)
    (h : Event.callProcessTextFile p i ∈ (process_uploaded_file f proc).2) :
    i = pyStem f.name ∧ pyStem f.name ++ pySuffix f.name = f.name
    ∧ pySuffix f.name ≠ "" := by
  rcases process_uploaded_file_cases f proc with hc | ⟨s, hs, hb, htr, _⟩
  · exfalso
    rw [hc] at h
    rcases List.mem_cons.mp h with hh | hm
    · simp at hh
    · exact (no_proc_call_in_extract f p i).1 hm
  · have hi : i = pyStem f.name := by
      rw [htr] at h
      rcases List.mem_cons.mp h with hh | hm
      · simp at hh
      rcases List.mem_append.mp hm with hm1 | hm2
      · exact absurd hm1 (no_proc_call_in_extract f p i).1
      rcases List.mem_cons.mp hm2 with hh | hm3
      · simp at hh
      rcases List.mem_cons.mp hm3 with hh | hm4
      · simp at hh
        exact hh.2
      · simp at hm4
    have hsupp := extractPhase_supported f (some s) hs
    have hsuf : pySuffix f.name ≠ "" := by
      rcases hsupp with h4 | h4 | h4 | h4 <;>
        exact pySuffix_ne_empty_of_lower _ _ (by decide) h4
    exact ⟨hi, pyStem_append_pySuffix f.name, hsuf⟩

/-- Witness for C5: ingesting notes.txt hands the processor the document
id "notes", the file name minus its final extension. -/
theorem document_id_is_file_stem_witness :
    Event.callProcessTextFile "uploads/notes.txt_processed.txt" "notes"
      ∈ (process_uploaded_file txtUploadNotes procOk).2
    ∧ ("notes" = pyStem "notes.txt"
        ∧ pyStem "notes.txt" ++ pySuffix "notes.txt" = "notes.txt"
        ∧ pySuffix "notes.txt" ≠ "") :=
  ⟨by decide, document_id_is_file_stem txtUploadNotes procOk
      "uploads/notes.txt_processed.txt" "notes" (by decide)⟩

/-- C8: an uploaded file whose lower-cased extension is not one of .txt,
.docx, .pdf, .csv is rejected with False; the only emitted effect is the
creation of the uploads directory — no extraction, no file write, no
processor call. -/
theorem unsupported_extension_rejected (f : UploadedFile)
    (proc : String → String → Except PyError Bool)
    (h : pyLower (pySuffix f.name) ∉ [".txt", ".docx", ".pdf", ".csv"]) :
    process_uploaded_file f proc = (false, [Event.mkUploadsDir]) := by
  simp only [List.mem_cons, List.not_mem_nil, or_false, not_or] at h
  obtain ⟨h1, h2, h3, h4⟩ := h
  simp [process_uploaded_file, extractPhase, h1, h2, h3, h4]

/-- Witness for C8: an .exe upload is rejected with only the directory
creation in its trace. -/
theorem unsupported_extension_rejected_witness :
    process_uploaded_file exeUpload procOk = (false, [Event.mkUploadsDir]) :=
  unsupported_extension_rejected exeUpload procOk (by decide)

/-- C9: on every successful upload processing, the extracted text is
persisted verbatim to `uploads/{name}_processed.txt` before the processor
is invoked, and running the trace against any prior file-system state
leaves that path holding exactly this text — so re-uploading a file with
the same name overwrites the persisted text. -/
theorem extracted_text_persisted_before_ingest (f : UploadedFile)
    (proc : String → String → Except PyError Bool)
    (h : (process_uploaded_file f proc).1 = true) :
    ∃ s, (extractPhase f).1 = ExtractOutcome.extracted (some s)
      ∧ (process_uploaded_file f proc).2
          = Event.mkUploadsDir :: (extractPhase f).2
            ++ [Event.writeFile (processedPath f.name) s,
                Event.callProcessTextFile (processedPath f.name) (pyStem f.name)]
      ∧ ∀ fs, fileLookup (processedPath f.name)
            (runEvents fs (process_uploaded_file f proc).2) = some s := by
  rcases process_uploaded_file_cases f proc with hc | ⟨s, hs, hb, htr, _⟩
  · rw [hc] at h
    exact absurd h (by simp)
  · refine ⟨s, hs, htr, ?_⟩
    intro fs
    rw [htr]
    have h1 : runEvents fs (Event.mkUploadsDir :: (extractPhase f).2
        ++ [Event.writeFile (processedPath f.name) s,
            Event.callProcessTextFile (processedPath f.name) (pyStem f.name)])
        = (processedPath f.name, s)
            :: fs.filter (fun e => e.1 ≠ processedPath f.name) := by
      unfold runEvents
      rw [List.foldl_append]
      have h2 : List.foldl applyEvent fs
          (Event.mkUploadsDir :: (extractPhase f).2) = fs := by
        rw [List.foldl_cons]
        exact runEvents_extract f fs
      rw [h2]
      rfl
    rw [h1]
    unfold fileLookup
    rw [List.find?_cons_of_pos _ (by simp)]
    rfl

/-- Witness for C9: a successful memo.txt upload leaves
uploads/memo.txt_processed.txt holding exactly the extracted text. -/
theorem extracted_text_persisted_before_ingest_witness :
    (process_uploaded_file txtUploadMemo procOk).1 = true
    ∧ fileLookup (processedPath "memo.txt")
        (runEvents [] (process_uploaded_file txtUploadMemo procOk).2)
        = some "hello memo" := by
  have h := extracted_text_persisted_before_ingest txtUploadMemo procOk (by decide)
  obtain ⟨s, hs, htr, hlook⟩ := h
  have he : ExtractOutcome.extracted (some "hello memo")
      = ExtractOutcome.extracted (some s) := hs
  injection he with h1
  injection h1 with h2
  subst h2
  exact ⟨by decide, hlook []⟩

/-- C1, counterexample: processing the upload a.txt with extracted text
"hello" never performs the call `process_document("hello", "a")` the spec
names as the ingestion surface; the actual hand-off is
`process_text_file("uploads/a.txt_processed.txt", "a")`, receiving a file
path rather than the text blob. -/
theorem upload_call_counterexample :
    specIngestionCall "hello" "a" ∉ (process_uploaded_file txtUploadA procOk).2
    ∧ (process_uploaded_file txtUploadA procOk).2
        = [Event.mkUploadsDir, Event.readTxt,
           Event.writeFile "uploads/a.txt_processed.txt" "hello",
           Event.callProcessTextFile "uploads/a.txt_processed.txt" "a"] :=
  ⟨by decide, by decide⟩

/-- C1, amended: ingestion of an upload is performed by exactly one
operation on the document processor, `process_text_file(file_path, id)`;
the frontend never calls `process_document(text, id)`, and every processor
hand-off carries the path of the persisted extracted-text file together
with the document identifier derived from the file name. -/
theorem upload_ingestion_via_process_text_file (f : UploadedFile)
    (proc : String → String → Except PyError Bool) (t i : String) :
    Event.callProcessDocument t i ∉ (process_uploaded_file f proc).2
    ∧ (Event.callProcessTextFile t i ∈ (process_uploaded_file f proc).2 →
        t = processedPath f.name ∧ i = pyStem f.name) := by
  rcases process_uploaded_file_cases f proc with hc | ⟨s, hs, hb, htr, _⟩
  · rw [hc]
    constructor
    · intro hm
      rcases List.mem_cons.mp hm with hh | hm2
      · simp at hh
      · exact (no_proc_call_in_extract f t i).2.1 hm2
    · intro hm
      exfalso
      rcases List.mem_cons.mp hm with hh | hm2
      · simp at hh
      · exact (no_proc_call_in_extract f t i).1 hm2
  · rw [htr]
    constructor
    · intro hm
      rcases List.mem_cons.mp hm with hh | hm2
      · simp at hh
      rcases List.mem_append.mp hm2 with hm3 | hm4
      · exact (no_proc_call_in_extract f t i).2.1 hm3
      · simp at hm4
    · intro hm
      rcases List.mem_cons.mp hm with hh | hm2
      · simp at hh
      rcases List.mem_append.mp hm2 with hm3 | hm4
      · exact absurd hm3 (no_proc_call_in_extract f t i).1
      rcases List.mem_cons.mp hm4 with hh | hm5
      · simp at hh
      rcases List.mem_cons.mp hm5 with hh | hm6
      · simp at hh
        exact hh
      · simp at hm6

/-- Witness for C1 (amended): for the a.txt upload, the spec-named call
with its text blob is absent and the one processor hand-off carries the
persisted path and the stem. -/
theorem upload_ingestion_via_process_text_file_witness :
    Event.callProcessDocument "hello" "a"
      ∉ (process_uploaded_file txtUploadA procOk).2
    ∧ ("uploads/a.txt_processed.txt" = processedPath "a.txt"
        ∧ "a" = pyStem "a.txt") :=
  ⟨(upload_ingestion_via_process_text_file txtUploadA procOk "hello" "a").1,
   (upload_ingestion_via_process_text_file txtUploadA procOk
      "uploads/a.txt_processed.txt" "a").2 (by decide)⟩

theorem add_samples_chunks_dim_irrel (emb : String → List Rat) :
    ∀ (samples : List (String × String)) (cs : List Chunk) (d1 d2 : Nat),
      (add_sample_documents samples emb { dim := d1, chunks := cs }).chunks
      = (add_sample_documents samples emb { dim := d2, chunks := cs }).chunks := by
  intro samples
  induction samples with
  | nil => intro cs d1 d2; rfl
  | cons hd tl ih =>
    intro cs d1 d2
    simp only [add_sample_documents, List.foldl_cons] at ih ⊢
    unfold process_document
    by_cases hb : hd.2.data.all pyIsSpace
    · rw [if_pos hb, if_pos hb]
      exact ih cs d1 d2
    · rw [if_neg hb, if_neg hb]
      exact ih _ d1 d2

/-- C2: `ask_question` never lets an exception escape its boundary: it
always returns an answer-indicator pair, every internal failure (empty
question, embedding failure, empty corpus / no relevant passage) resolves
to a fixed non-empty textual answer with the degraded indicator, and a
generative-model unavailability in advanced mode resolves to the signalled
template fallback rather than an error. -/
theorem ask_question_never_raises (env : QueryEnv) (q : String) (adv : Bool) :
    (∃ a ind, ask_question env q adv = (a, ind))
    ∧ (∀ fq, askQuestionInner env q adv = Except.error fq →
        ask_question env q adv = (failureAnswer fq, false) ∧ failureAnswer fq ≠ "")
    ∧ (adv = true → env.generativeAvailable = false →
        (∃ fq, askQuestionInner env q adv = Except.error fq)
        ∨ ask_question env q adv = (templateAnswer (env.retrieved q), false)) := by
  refine ⟨⟨(ask_question env q adv).1, (ask_question env q adv).2, rfl⟩, ?_, ?_⟩
  · intro fq hf
    constructor
    · simp [ask_question, hf]
    · cases fq <;> decide
  · intro hadv hgen
    cases h1 : q.data.all pyIsSpace with
    | true =>
      exact Or.inl ⟨QueryFailure.emptyQuestion, by simp [askQuestionInner, h1]⟩
    | false =>
      cases h2 : env.embedOk with
      | false =>
        exact Or.inl ⟨QueryFailure.embeddingFailed, by simp [askQuestionInner, h1, h2]⟩
      | true =>
        cases h3 : (env.retrieved q).isEmpty with
        | true =>
          exact Or.inl ⟨QueryFailure.noRelevantPassages,
            by simp [askQuestionInner, h1, h2, h3]⟩
        | false =>
          right
          simp [ask_question, askQuestionInner, h1, h2, h3, hadv, hgen]

/-- Witness for C2: with the embedder down, asking a question yields the
fixed degraded answer and the failure indicator, not an exception. -/
theorem ask_question_never_raises_witness :
    ask_question env0 "What is the vacation policy?" false
      = (failureAnswer QueryFailure.embeddingFailed, false)
    ∧ failureAnswer QueryFailure.embeddingFailed ≠ "" :=
  (ask_question_never_raises env0 "What is the vacation policy?" false).2.1
    QueryFailure.embeddingFailed rfl

/-- C6: in every store state, clearing all documents and reading the
stats yields `total_documents = 0`; and the count the reprocessing script
reports after clear-then-add-samples is independent of whatever the store
held before the clear — it reflects only the sample documents. -/
theorem clear_then_stats_zero (s s2 : VectorStore)
    (samples : List (String × String)) (emb : String → List Rat) :
    (get_vector_store_stats (clear_all_documents s)).total_documents = 0
    ∧ reprocess_script samples emb s = reprocess_script samples emb s2 := by
  constructor
  · rfl
  · unfold reprocess_script clear_all_documents get_vector_store_stats
    dsimp only
    rw [add_samples_chunks_dim_irrel emb samples [] s.dim s2.dim]

/-- C7: the stats snapshot is a dictionary with exactly the keys
`total_documents` and `dimension`; `total_documents` is recomputed from
the current chunk list (never stale), `dimension` is the store dimension,
and both dictionary accesses succeed. -/
theorem stats_snapshot_shape (s : VectorStore) :
    (statsDict s).map Prod.fst = ["total_documents", "dimension"]
    ∧ dictGet "total_documents" (statsDict s)
        = some (get_vector_store_stats s).total_documents
    ∧ (get_vector_store_stats s).total_documents = s.chunks.length
    ∧ dictGet "dimension" (statsDict s)
        = some (get_vector_store_stats s).dimension
    ∧ (get_vector_store_stats s).dimension = s.dim := by
  refine ⟨rfl, ?_, rfl, ?_, rfl⟩
  · rfl
  · rfl

/-- C10: for every CSV file that parses, the extracted text is exactly the
file name header, the comma-joined column names, the total row count, the
rendering of at most the first 10 rows, and — if and only if a numeric
column exists — the summary statistics, in this order. -/
theorem csv_text_structure (fname : String) (df : CsvFrame) :
    extract_text_from_csv fname (Except.ok df)
      = some ("CSV Data from " ++ fname ++ ":\n\n"
          ++ "Columns: " ++ String.intercalate ", " (df.columns.map Prod.fst) ++ "\n\n"
          ++ "Total rows: " ++ toString df.rows.length ++ "\n\n"
          ++ "Sample data:\n" ++ df.renderTable (df.rows.take 10)
          ++ (if ((df.columns.filter (fun c => c.2)).map Prod.fst).length > 0
              then "\n\nSummary Statistics:\n" ++ df.describeStr else ""))
    ∧ (df.rows.take 10).length ≤ 10
    ∧ (((df.columns.filter (fun c => c.2)).map Prod.fst).length > 0
        ↔ ∃ c ∈ df.columns, c.2 = true) := by
  refine ⟨?_, ?_, ?_⟩
  · unfold extract_text_from_csv
    dsimp only
    by_cases hn : ((df.columns.filter (fun c => c.2)).map Prod.fst).length > 0
    · rw [if_pos hn, if_pos hn, String.append_assoc]
    · rw [if_neg hn, if_neg hn, String.append_empty]
  · rw [List.length_take]
    exact Nat.min_le_left _ _
  · simp [List.length_pos, List.filter_eq_nil_iff]

end NovaDoc
